import Mathlib

/-!
Shallow embedding of the core data transformations of
`src/student_analysis.py`, a pandas/streamlit dashboard over a CSV of
per-student subject scores, together with proofs about the claims of the
specification.  Scores, totals and percentages are modelled as rationals;
a pandas `NaN` result is modelled as `none`.
-/

namespace StudentAnalysis

/-- A wide-format row of the uploaded CSV, with the columns the dashboard
reads: the identifying fields, the three raw subject scores, and the
derived columns `Total`, `Percentage`, `Grade` exactly as provided in the
file (the program never recomputes them). -/
structure StudentRow where
  studentId : Nat
  name : String
  classLabel : String
  gender : String
  math : ℚ
  science : ℚ
  english : ℚ
  total : ℚ
  percentage : ℚ
  grade : String
  deriving DecidableEq, Repr

/-- A long-format row produced by `df.melt`: the id_vars plus one
(Subject, Score) pair. -/
structure LongRow where
  studentId : Nat
  name : String
  classLabel : String
  gender : String
  subject : String
  score : ℚ
  deriving DecidableEq, Repr

/-- The `value_vars` of the melt call at lines 66-71, in source order. -/
def value_vars : List String := ["Math", "Science", "English"]

/-- Column lookup `frame[s]` for the three subject columns. -/
def subjectColumn (s : String) (r : StudentRow) : ℚ :=
  if s = "Math" then r.math else if s = "Science" then r.science else r.english

/-- One melted row: the id_vars of `r` plus the (subject, score) pair. -/
def meltRow (r : StudentRow) (s : String) : LongRow :=
  ⟨r.studentId, r.name, r.classLabel, r.gender, s, subjectColumn s r⟩

/-- Lines 66-71: `df.melt(id_vars=[...], value_vars=['Math','Science','English'])`.
pandas melt concatenates one block per value_var: for each subject, in
`value_vars` order, it emits every input row in input order, so the output
is column-major (all Math rows, then all Science rows, then all English
rows). -/
def df_long (df : List StudentRow) : List LongRow :=
  value_vars.flatMap (fun s => df.map (fun r => meltRow r s))

/-- `Series.mean()`: the arithmetic mean, `NaN` (none) on an empty series. -/
def seriesMean (l : List ℚ) : Option ℚ :=
  if l.isEmpty then none else some (l.sum / l.length)

/-- Round a rational to the nearest integer, ties to even, as numpy/pandas
`round` does on exact halves. -/
def roundHalfEven (q : ℚ) : ℤ :=
  let f := ⌊q⌋
  let frac := q - f
  if frac < 1 / 2 then f
  else if 1 / 2 < frac then f + 1
  else if f % 2 = 0 then f else f + 1

/-- `.round(2)`: round to two decimal places. -/
def round2 (q : ℚ) : ℚ := (roundHalfEven (q * 100) : ℚ) / 100

/-- Line 58: `df['Percentage'].mean().round(2)` — the mean of the provided
`Percentage` column.  It is read from the file, not recomputed from the
subject scores. -/
def avg_percentage (df : List StudentRow) : Option ℚ :=
  (seriesMean (df.map (·.percentage))).map round2

/-- Line 122: `df[['Math','Science','English']].mean().round(2)` — the
per-subject means, `NaN` (none) on a zero-row frame. -/
def subject_avgs (df : List StudentRow) : Option ℚ × Option ℚ × Option ℚ :=
  ((seriesMean (df.map (·.math))).map round2,
   (seriesMean (df.map (·.science))).map round2,
   (seriesMean (df.map (·.english))).map round2)

/-- Line 106: the hard-coded display order of the grade vocabulary. -/
def grade_order : List String := ["A+", "A", "B", "C", "D", "F"]

/-- Line 107: `df['Grade'].value_counts().reindex(grade_order)`.
`value_counts` lists only the labels that occur (count at least 1);
`reindex` then gives each label of `grade_order` its count, or `NaN`
(none) for a label that occurs nowhere.  Rows whose `Grade` lies outside
`grade_order` are silently dropped by the reindex. -/
def grade_counts (df : List StudentRow) : List (String × Option Nat) :=
  grade_order.map (fun g =>
    let c := df.countP (fun r => r.grade == g)
    (g, if c = 0 then none else some c))

/-- The order `df.nlargest(_, 'Percentage')` sorts by: `a` is ranked before
`b` when the Percentage of `b` is at most that of `a`. -/
def percDesc (a b : StudentRow) : Prop := b.percentage ≤ a.percentage

/-- The order `df.nsmallest(_, 'Percentage')` sorts by. -/
def percAsc (a b : StudentRow) : Prop := a.percentage ≤ b.percentage

instance : DecidableRel percDesc := fun _ _ => inferInstanceAs (Decidable (_ ≤ _))

instance : DecidableRel percAsc := fun _ _ => inferInstanceAs (Decidable (_ ≤ _))

instance : IsTotal StudentRow percDesc := ⟨fun a b => le_total b.percentage a.percentage⟩

instance : IsTotal StudentRow percAsc := ⟨fun a b => le_total a.percentage b.percentage⟩

instance : IsTrans StudentRow percDesc := ⟨fun _ _ _ h1 h2 => le_trans h2 h1⟩

instance : IsTrans StudentRow percAsc := ⟨fun _ _ _ h1 h2 => le_trans h1 h2⟩

/-- `df.nlargest(n, 'Percentage')`: pandas sorts stably (mergesort on the
negated key) by descending Percentage, so ties keep their input order and
first occurrences win at the cutoff, then keeps `min n len` rows; modelled
as a stable descending insertion sort followed by `take` (the output of any
stable sort is unique, so this equals the pandas mergesort). -/
def nlargestPerc (n : Nat) (df : List StudentRow) : List StudentRow :=
  (List.insertionSort percDesc df).take n

/-- `df.nsmallest(n, 'Percentage')`: stable ascending sort, then `take`. -/
def nsmallestPerc (n : Nat) (df : List StudentRow) : List StudentRow :=
  (List.insertionSort percAsc df).take n

/-- Line 137: the Top 5 Performers table rows.  The source then selects the
display columns Name, Class, Math, Science, English, Total, Percentage,
Grade; the selection only drops Student_ID and Gender and changes no
value, so rows are kept whole here. -/
def top_students (df : List StudentRow) : List StudentRow := nlargestPerc 5 df

/-- Line 142: the Bottom 5 Performers table rows. -/
def bottom_students (df : List StudentRow) : List StudentRow := nsmallestPerc 5 df

/-- The derived fields the performer tables and the profile card display
for a student: the provided `Total`, `Percentage` and `Grade` columns. -/
def reportedDerived (r : StudentRow) : ℚ × ℚ × String := (r.total, r.percentage, r.grade)

/-- `groupby` keys with the default `sort=True`: the distinct key values
sorted ascending — not in order of first appearance. -/
def groupKeys (keys : List String) : List String :=
  List.insertionSort (· ≤ ·) keys.dedup

/-- Lines 211-213: `df.groupby('Class')['Percentage'].agg(['mean','count']).round(2)`:
per class label (sorted by label), the rounded mean of the provided
`Percentage` column and the member count. -/
def class_performance (df : List StudentRow) : List (String × Option ℚ × Nat) :=
  (groupKeys (df.map (·.classLabel))).map (fun c =>
    let grp := df.filter (fun r => r.classLabel == c)
    (c, (seriesMean (grp.map (·.percentage))).map round2, grp.length))

/-- Line 152: `df_long.groupby('Subject')['Score'].mean().reset_index()`:
the cohort per-subject averages, keyed by subject sorted alphabetically
(groupby default), computed over every row of the long frame. -/
def class_avg (long : List LongRow) : List (String × Option ℚ) :=
  (groupKeys (long.map (·.subject))).map (fun s =>
    (s, seriesMean ((long.filter (fun e => e.subject == s)).map (·.score))))

/-- Line 151: `df_long[df_long['Name'] == selected_student]` — the boolean
mask keeps the long rows of the selected student in their long-frame
order. -/
def student_data (long : List LongRow) (nm : String) : List LongRow :=
  long.filter (fun e => e.name == nm)

/-- The mean as a plain rational (0 on the empty list, which is only ever
used under a nonemptiness guard). -/
def meanQ (l : List ℚ) : ℚ := l.sum / l.length

/-- The centered product sum of two equal-length columns. -/
def sxy (xs ys : List ℚ) : ℚ :=
  ((xs.zip ys).map (fun p => (p.1 - meanQ xs) * (p.2 - meanQ ys))).sum

/-- The centered square sum of a column: `(n-1)` times its variance. -/
def sxx (xs : List ℚ) : ℚ := sxy xs xs

/-- One entry of `df[['Math','Science','English']].corr()` (line 99): the
Pearson coefficient of two equal-length columns.  pandas computes
`cov(x,y) / (std x * std y)`; the `1/(n-1)` factors cancel, leaving the
centered product sum over the square root of the product of the centered
square sums.  When either column has zero variance (in particular with
fewer than two rows) the float quotient is `0/0 = NaN`, modelled as
none. -/
noncomputable def pearson (xs ys : List ℚ) : Option ℝ :=
  if sxx xs = 0 ∨ sxx ys = 0 then none
  else some ((sxy xs ys : ℝ) / Real.sqrt ((sxx xs : ℝ) * (sxx ys : ℝ)))

/-- The subject column of the wide frame, as a list of scores. -/
def column (df : List StudentRow) (s : String) : List ℚ := df.map (subjectColumn s)

/-- Line 99: `df[['Math','Science','English']].corr()` — the 3 by 3 matrix
of Pearson coefficients of the subject columns. -/
noncomputable def subject_corr (df : List StudentRow) : List (List (Option ℝ)) :=
  value_vars.map (fun s1 => value_vars.map (fun s2 => pearson (column df s1) (column df s2)))

/-- Modelled from the spec: the recomputed total of a record (sum of its
raw subject scores), which the design says every reported total must
equal. -/
def specTotal (r : StudentRow) : ℚ := r.math + r.science + r.english

/-- Modelled from the spec: the recomputed percentage of a record,
`total / (subjects x max_score) x 100` with three subjects of maximum
score 100. -/
def specPercentage (r : StudentRow) : ℚ := specTotal r / (3 * 100) * 100

/-! ### Helper lemmas -/

/-- The melt output spelled out as three per-subject blocks. -/
lemma df_long_eq (df : List StudentRow) :
    df_long df =
      df.map (fun r => meltRow r "Math") ++ (df.map (fun r => meltRow r "Science")
        ++ df.map (fun r => meltRow r "English")) := by
  simp [df_long, value_vars]

/-! ### Claim C2: row order of the melt output -/

/-- Claim C2 (amended): the long output has one row per (student, subject)
pair, but its row order is subjects x records in column-major order: the
output is one block per subject, in `value_vars` order, and within each
block the input records appear in input order, so the entry at position
`j * len + i` is the melt of record `i` with subject `j`.  (The claim as
stated, records x subjects in row-major order, is refuted by
`df_long_not_row_major`.) -/
theorem df_long_column_major (df : List StudentRow) (i j : Nat)
    (hi : i < df.length) (hj : j < value_vars.length) :
    (df_long df).length = value_vars.length * df.length ∧
    (df_long df)[j * df.length + i]? = some (meltRow df[i] value_vars[j]) := by
  constructor
  · rw [df_long_eq]
    simp [value_vars]
    ring
  · have hj3 : j < 3 := by simpa [value_vars] using hj
    rw [df_long_eq]
    interval_cases j
    · rw [show 0 * df.length + i = i by omega]
      rw [List.getElem?_append_left (by simp only [List.length_map]; omega)]
      simp [List.getElem?_eq_getElem hi, value_vars]
    · rw [List.getElem?_append_right (by simp only [List.length_map]; omega)]
      simp only [List.length_map]
      rw [show 1 * df.length + i - df.length = i by omega]
      rw [List.getElem?_append_left (by simp only [List.length_map]; omega)]
      simp [List.getElem?_eq_getElem hi, value_vars]
    · rw [List.getElem?_append_right (by simp only [List.length_map]; omega)]
      simp only [List.length_map]
      rw [show 2 * df.length + i - df.length = df.length + i by omega]
      rw [List.getElem?_append_right (by simp only [List.length_map]; omega)]
      simp only [List.length_map]
      rw [show df.length + i - df.length = i by omega]
      simp [List.getElem?_eq_getElem hi, value_vars]

/-- First student of the C2 counterexample. -/
def c2a : StudentRow := ⟨1, "Ann", "10A", "F", 10, 20, 30, 60, 20, "F"⟩

/-- Second student of the C2 counterexample. -/
def c2b : StudentRow := ⟨2, "Ben", "10A", "M", 40, 50, 60, 150, 50, "D"⟩

/-- Claim C2 counterexample: with two students, the second output row is
the second student paired with Math (column-major), not the first student
paired with Science as the claimed row-major order requires. -/
theorem df_long_not_row_major :
    (df_long [c2a, c2b])[1]? = some (meltRow c2b "Math") ∧
    meltRow c2b "Math" ≠ meltRow c2a "Science" := by
  constructor
  · simp [df_long, value_vars]
  · intro h
    have := congrArg LongRow.studentId h
    simp [meltRow, c2a, c2b] at this

/-- Witness for `df_long_column_major` at a concrete frame, i = 1, j = 2. -/
theorem df_long_column_major_witness :
    1 < [c2a, c2b].length ∧ 2 < value_vars.length ∧
    ((df_long [c2a, c2b]).length = value_vars.length * [c2a, c2b].length ∧
      (df_long [c2a, c2b])[2 * [c2a, c2b].length + 1]? =
        some (meltRow [c2a, c2b][1] value_vars[2])) := by
  refine ⟨by simp, by simp [value_vars], df_long_column_major [c2a, c2b] 1 2 (by simp) (by simp [value_vars])⟩

/-! ### Claim C3: round-trip of melt under grouping -/

/-- Claim C3 (confirmed): for a student occurring exactly once in the wide
input and any tracked subject, the melt output restricted to that
(student, subject) group is exactly the single entry carrying the original
wide score of that student for that subject. -/
theorem df_long_roundtrip (df : List StudentRow) (r : StudentRow) (s : String)
    (hr : df.filter (fun x => x.studentId == r.studentId) = [r])
    (hs : s ∈ value_vars) :
    (df_long df).filter (fun e => e.studentId == r.studentId && e.subject == s)
      = [meltRow r s] := by
  have hs3 : s = "Math" ∨ s = "Science" ∨ s = "English" := by
    simpa [value_vars] using hs
  have block : ∀ t : String,
      (df.map (fun x => meltRow x t)).filter
          (fun e => e.studentId == r.studentId && e.subject == s)
        = (df.filter (fun x => x.studentId == r.studentId && t == s)).map
            (fun x => meltRow x t) := by
    intro t
    rw [List.filter_map]
    rfl
  rcases hs3 with rfl | rfl | rfl <;>
    simp [df_long_eq, List.filter_append, block, hr]

/-- Rows of the C3 witness frame. -/
def c3a : StudentRow := ⟨1, "Cara", "10A", "F", 85, 88, 82, 255, 85, "A"⟩

/-- Second row of the C3 witness frame. -/
def c3b : StudentRow := ⟨2, "Dan", "10B", "M", 92, 95, 88, 275, 9167/100, "A+"⟩

/-- Witness for `df_long_roundtrip` at a concrete frame and subject. -/
theorem df_long_roundtrip_witness :
    ([c3a, c3b].filter (fun x => x.studentId == c3b.studentId) = [c3b]) ∧
    ("Science" ∈ value_vars) ∧
    (df_long [c3a, c3b]).filter
        (fun e => e.studentId == c3b.studentId && e.subject == "Science")
      = [meltRow c3b "Science"] :=
  ⟨by simp [c3a, c3b], by simp [value_vars],
    df_long_roundtrip [c3a, c3b] c3b "Science" (by simp [c3a, c3b]) (by simp [value_vars])⟩

/-! ### Claim C5: behaviour of the aggregates on a zero-row frame -/

/-- Claim C5 counterexample: on the zero-row frame the program does not
fail — it defines no `EmptyInputError` at all — and the subject averages
and the average percentage are the pandas `NaN` values (none), exactly the
silent outcome the claim says is avoided. -/
theorem subject_avgs_empty_returns_nan :
    subject_avgs ([] : List StudentRow) = (none, none, none) ∧
    avg_percentage ([] : List StudentRow) = none :=
  ⟨rfl, rfl⟩

/-- Claim C5 (amended): the subject averages and the average percentage
are total functions that return `NaN` (none) exactly on the zero-row
frame; no exception of any kind is raised. -/
theorem subject_avgs_nan_iff_empty (df : List StudentRow) :
    (subject_avgs df = (none, none, none) ∧ avg_percentage df = none) ↔ df = [] := by
  cases df with
  | nil => simp [subject_avgs, avg_percentage, seriesMean]
  | cons x l => simp [subject_avgs, avg_percentage, seriesMean]

/-! ### Claims C4 and C10: the grade distribution -/

lemma sum_map_add_nat (f h : String → Nat) (l : List String) :
    (l.map (fun a => f a + h a)).sum = (l.map f).sum + (l.map h).sum := by
  induction l with
  | nil => simp
  | cons x l ih => simp [ih]; omega

lemma sum_indicator_nodup (a : String) (L : List String) (hL : L.Nodup) :
    (L.map (fun g => if a = g then 1 else 0)).sum = if a ∈ L then 1 else 0 := by
  induction L with
  | nil => simp
  | cons g L ih =>
    obtain ⟨hg, hL'⟩ := List.nodup_cons.mp hL
    rw [List.map_cons, List.sum_cons, ih hL']
    by_cases hag : a = g
    · subst hag
      simp [hg]
    · simp [hag]

lemma sum_countP_labels (df : List StudentRow) :
    (grade_order.map (fun g => df.countP (fun r => r.grade == g))).sum
      = (df.filter (fun r => decide (r.grade ∈ grade_order))).length := by
  induction df with
  | nil => simp
  | cons x df ih =>
    simp only [List.countP_cons, beq_iff_eq]
    rw [sum_map_add_nat, ih,
      sum_indicator_nodup x.grade grade_order (by simp [grade_order])]
    by_cases hm : x.grade ∈ grade_order <;> simp [List.filter_cons, hm]

lemma filterMap_if_sum (c : String → Nat) (L : List String) :
    (L.filterMap (fun g => if c g = 0 then (none : Option Nat) else some (c g))).sum
      = (L.map c).sum := by
  induction L with
  | nil => simp
  | cons g L ih =>
    rw [List.filterMap_cons]
    by_cases h : c g = 0 <;> simp [h, ih]

/-- Claim C4 (amended): the grade distribution lists exactly the labels of
the fixed vocabulary A+, A, B, C, D, F, in that display order; a label
with no matching rows carries a missing (NaN) count rather than an
explicit zero; and the counts that are present sum to the number of rows
whose grade lies in the vocabulary (not to the full row count: rows with
out-of-vocabulary grades are not counted anywhere). -/
theorem grade_counts_spec (df : List StudentRow) (g : String) (hg : g ∈ grade_order) :
    (grade_counts df).map Prod.fst = grade_order ∧
    ((g, (none : Option Nat)) ∈ grade_counts df ↔
      df.countP (fun r => r.grade == g) = 0) ∧
    ((grade_counts df).filterMap Prod.snd).sum
      = (df.filter (fun r => decide (r.grade ∈ grade_order))).length := by
  refine ⟨by simp [grade_counts, List.map_map, Function.comp_def], ?_, ?_⟩
  · rw [grade_counts, List.mem_map]
    constructor
    · rintro ⟨a, ha, hEq⟩
      have h1 : a = g := congrArg Prod.fst hEq
      have h2 := congrArg Prod.snd hEq
      subst h1
      by_cases hc : df.countP (fun r => r.grade == a) = 0
      · exact hc
      · simp [hc] at h2
    · intro h0
      exact ⟨g, hg, by simp [h0]⟩
  · rw [grade_counts]
    simp only [List.filterMap_map]
    exact (filterMap_if_sum (fun g => df.countP (fun r => r.grade == g))
      grade_order).trans (sum_countP_labels df)

/-- The single row of the C4 counterexample frame; its grade is A. -/
def c4r : StudentRow := ⟨1, "Eve", "10A", "F", 85, 88, 82, 255, 85, "A"⟩

/-- Claim C4 counterexample: on a frame with one A student, the displayed
count for the absent grade F is the NaN sentinel (none), not an explicit
zero. -/
theorem grade_counts_missing_not_zero :
    ("F", (none : Option Nat)) ∈ grade_counts [c4r] ∧
    ("F", some 0) ∉ grade_counts [c4r] := by
  constructor
  · simp [grade_counts, grade_order, c4r]
  · simp [grade_counts, grade_order, c4r]

/-- The single row of the C4 witness frame; its grade is B. -/
def c4w : StudentRow := ⟨2, "Flo", "10B", "F", 78, 72, 75, 225, 75, "B"⟩

/-- Witness for `grade_counts_spec` at a concrete frame and label. -/
theorem grade_counts_spec_witness :
    "D" ∈ grade_order ∧
    ((grade_counts [c4w]).map Prod.fst = grade_order ∧
      (("D", (none : Option Nat)) ∈ grade_counts [c4w] ↔
        ([c4w] : List StudentRow).countP (fun r => r.grade == "D") = 0) ∧
      ((grade_counts [c4w]).filterMap Prod.snd).sum
        = (([c4w] : List StudentRow).filter
            (fun r => decide (r.grade ∈ grade_order))).length) :=
  ⟨by simp [grade_order], grade_counts_spec [c4w] "D" (by simp [grade_order])⟩

/-- First row of the C10 frame; its grade A is in the vocabulary. -/
def c10a : StudentRow := ⟨1, "Gus", "10A", "M", 85, 88, 82, 255, 85, "A"⟩

/-- Second row of the C10 frame; its grade E is outside the vocabulary. -/
def c10b : StudentRow := ⟨2, "Hal", "10A", "M", 40, 45, 42, 127, 4233/100, "E"⟩

/-- Claim C10 (confirmed): on a frame with grades A and E, the displayed
counts sum to 1 although the frame has 2 rows, and no displayed label is
E — the row with the out-of-vocabulary grade is silently dropped. -/
theorem grade_counts_undercounts_unknown_grades :
    ((grade_counts [c10a, c10b]).filterMap Prod.snd).sum = 1 ∧
    ([c10a, c10b] : List StudentRow).length = 2 ∧
    ∀ p ∈ grade_counts [c10a, c10b], p.1 ≠ "E" := by
  refine ⟨by simp [grade_counts, grade_order, c10a, c10b], by simp, ?_⟩
  intro p hp
  have h1 : p.1 ∈ grade_order := by
    have h2 := List.mem_map_of_mem Prod.fst hp
    simpa [grade_counts, List.map_map, Function.comp] using h2
  intro hE
  rw [hE] at h1
  exact absurd h1 (by simp [grade_order])

/-! ### Claim C8: top-n / bottom-n ranking -/

/-- A stable sort leaves the subsequence of rows satisfying a predicate
untouched, provided any two rows satisfying it are related (for a
key-based order: have equal keys). -/
lemma filter_insertionSort_eq (r : StudentRow → StudentRow → Prop) [DecidableRel r]
    (p : StudentRow → Bool) (l : List StudentRow)
    (hp : ∀ a b, p a = true → p b = true → r a b) :
    (List.insertionSort r l).filter p = l.filter p := by
  have hpair : (l.filter p).Pairwise r :=
    List.pairwise_of_forall_mem_list (fun a ha b hb =>
      hp a b (List.mem_filter.mp ha).2 (List.mem_filter.mp hb).2)
  have hsub : (l.filter p).Sublist (List.insertionSort r l) :=
    List.sublist_insertionSort hpair (List.filter_sublist l)
  have heq : (l.filter p).filter p = l.filter p :=
    List.filter_eq_self.mpr (fun a ha => (List.mem_filter.mp ha).2)
  have h2 : (l.filter p).Sublist ((List.insertionSort r l).filter p) := heq ▸ hsub.filter p
  have hlen : ((List.insertionSort r l).filter p).length = (l.filter p).length := by
    rw [← List.countP_eq_length_filter, ← List.countP_eq_length_filter]
    exact (List.perm_insertionSort r l).countP_eq p
  exact (h2.eq_of_length hlen.symm).symm

/-- What `take n` of a stable sort by the Percentage key guarantees:
clamped length, sortedness, stable ties as a prefix of each equal-key
fibre of the input, and extremality of the kept rows. -/
lemma take_sort_spec (r : StudentRow → StudentRow → Prop) [DecidableRel r]
    [IsTotal StudentRow r] [IsTrans StudentRow r]
    (hkey : ∀ a b, a.percentage = b.percentage → r a b)
    (df : List StudentRow) (n : Nat) :
    ((List.insertionSort r df).take n).length = min n df.length ∧
    ((List.insertionSort r df).take n).Pairwise r ∧
    (∀ v : ℚ, (((List.insertionSort r df).take n).filter (fun x => x.percentage == v)).IsPrefix
        (df.filter (fun x => x.percentage == v))) ∧
    (∀ y ∈ df, ((List.insertionSort r df).take n).count y < df.count y →
      ∀ x ∈ (List.insertionSort r df).take n, r x y) := by
  have hperm : (List.insertionSort r df).Perm df := List.perm_insertionSort r df
  have hsorted : (List.insertionSort r df).Pairwise r := List.sorted_insertionSort r df
  refine ⟨?_, ?_, ?_, ?_⟩
  · rw [List.length_take, hperm.length_eq]
  · exact List.Pairwise.sublist (List.take_sublist n _) hsorted
  · intro v
    have hstable : (List.insertionSort r df).filter (fun x => x.percentage == v)
        = df.filter (fun x => x.percentage == v) :=
      filter_insertionSort_eq r _ df (fun a b ha hb =>
        hkey a b ((beq_iff_eq.mp ha).trans (beq_iff_eq.mp hb).symm))
    rw [← hstable]
    conv_rhs => rw [← List.take_append_drop n (List.insertionSort r df)]
    rw [List.filter_append]
    exact List.prefix_append _ _
  · intro y hy hcount x hx
    have hcs : (List.insertionSort r df).count y = df.count y := hperm.count_eq y
    have hsplit := List.count_append y ((List.insertionSort r df).take n)
      ((List.insertionSort r df).drop n)
    rw [List.take_append_drop] at hsplit
    have hydrop : y ∈ (List.insertionSort r df).drop n :=
      List.count_pos_iff.mp (by omega)
    have hp : List.Pairwise r ((List.insertionSort r df).take n
        ++ (List.insertionSort r df).drop n) := by
      rw [List.take_append_drop]
      exact hsorted
    exact (List.pairwise_append.mp hp).2.2 x hx y hydrop

/-- Claim C8 (confirmed): for every n greater than 0, the top-n (and
bottom-n) selection keeps `min n len` rows (clamping an over-large n to
the available rows), the kept rows are sorted by the Percentage key
(descending resp. ascending), rows of equal key form a prefix of the
corresponding equal-key rows of the input (stable tie-break in input
order, including when n cuts a tie), and any input row not fully kept
ranks no better than every kept row. -/
theorem rank_extremes_spec (df : List StudentRow) (n : Nat) (hn : 0 < n) :
    ((nlargestPerc n df).length = min n df.length ∧
      (nlargestPerc n df).Pairwise (fun a b => b.percentage ≤ a.percentage) ∧
      (∀ v : ℚ, ((nlargestPerc n df).filter (fun x => x.percentage == v)).IsPrefix
          (df.filter (fun x => x.percentage == v))) ∧
      (∀ y ∈ df, (nlargestPerc n df).count y < df.count y →
        ∀ x ∈ nlargestPerc n df, y.percentage ≤ x.percentage)) ∧
    ((nsmallestPerc n df).length = min n df.length ∧
      (nsmallestPerc n df).Pairwise (fun a b => a.percentage ≤ b.percentage) ∧
      (∀ v : ℚ, ((nsmallestPerc n df).filter (fun x => x.percentage == v)).IsPrefix
          (df.filter (fun x => x.percentage == v))) ∧
      (∀ y ∈ df, (nsmallestPerc n df).count y < df.count y →
        ∀ x ∈ nsmallestPerc n df, x.percentage ≤ y.percentage)) :=
  ⟨take_sort_spec percDesc (fun a b hab => le_of_eq hab.symm) df n,
   take_sort_spec percAsc (fun a b hab => le_of_eq hab) df n⟩

/-- C8 witness frame: four students, a Percentage tie of 80 between the
second and third, cut by n = 2. -/
def c8a : StudentRow := ⟨1, "Ivy", "10A", "F", 90, 90, 90, 270, 90, "A+"⟩

/-- Second row of the C8 witness frame (first of the tie). -/
def c8b : StudentRow := ⟨2, "Jon", "10A", "M", 80, 80, 80, 240, 80, "A"⟩

/-- Third row of the C8 witness frame (second of the tie). -/
def c8c : StudentRow := ⟨3, "Kim", "10B", "F", 82, 80, 78, 240, 80, "A"⟩

/-- Fourth row of the C8 witness frame. -/
def c8d : StudentRow := ⟨4, "Lou", "10B", "M", 70, 70, 70, 210, 70, "B"⟩

/-- Witness for `rank_extremes_spec` at the concrete four-row frame with
n = 2. -/
theorem rank_extremes_spec_witness :
    0 < 2 ∧
    (((nlargestPerc 2 [c8a, c8b, c8c, c8d]).length = min 2 [c8a, c8b, c8c, c8d].length ∧
      (nlargestPerc 2 [c8a, c8b, c8c, c8d]).Pairwise (fun a b => b.percentage ≤ a.percentage) ∧
      (∀ v : ℚ, ((nlargestPerc 2 [c8a, c8b, c8c, c8d]).filter (fun x => x.percentage == v)).IsPrefix
          ([c8a, c8b, c8c, c8d].filter (fun x => x.percentage == v))) ∧
      (∀ y ∈ [c8a, c8b, c8c, c8d],
        (nlargestPerc 2 [c8a, c8b, c8c, c8d]).count y < [c8a, c8b, c8c, c8d].count y →
        ∀ x ∈ nlargestPerc 2 [c8a, c8b, c8c, c8d], y.percentage ≤ x.percentage)) ∧
    ((nsmallestPerc 2 [c8a, c8b, c8c, c8d]).length = min 2 [c8a, c8b, c8c, c8d].length ∧
      (nsmallestPerc 2 [c8a, c8b, c8c, c8d]).Pairwise (fun a b => a.percentage ≤ b.percentage) ∧
      (∀ v : ℚ, ((nsmallestPerc 2 [c8a, c8b, c8c, c8d]).filter (fun x => x.percentage == v)).IsPrefix
          ([c8a, c8b, c8c, c8d].filter (fun x => x.percentage == v))) ∧
      (∀ y ∈ [c8a, c8b, c8c, c8d],
        (nsmallestPerc 2 [c8a, c8b, c8c, c8d]).count y < [c8a, c8b, c8c, c8d].count y →
        ∀ x ∈ nsmallestPerc 2 [c8a, c8b, c8c, c8d], x.percentage ≤ y.percentage))) :=
  ⟨by decide, rank_extremes_spec [c8a, c8b, c8c, c8d] 2 (by decide)⟩

/-! ### Claim C6: per-class performance -/

/-- Claim C6 (amended): per distinct class label, the report carries the
mean of the provided Percentage column rounded to 2 decimal places and
the member count, but the groups are listed sorted ascending by the class
label (the pandas groupby default), not in order of first appearance in
the input. -/
theorem class_performance_spec (df : List StudentRow) (c : String) (m : Option ℚ) (k : Nat)
    (h : (c, m, k) ∈ class_performance df) :
    ((class_performance df).map Prod.fst).Sorted (· ≤ ·) ∧
    ((class_performance df).map Prod.fst).Perm (df.map (·.classLabel)).dedup ∧
    m = (seriesMean ((df.filter (fun r => r.classLabel == c)).map (·.percentage))).map round2 ∧
    k = (df.filter (fun r => r.classLabel == c)).length := by
  have hfst : (class_performance df).map Prod.fst = groupKeys (df.map (·.classLabel)) := by
    simp [class_performance, List.map_map, Function.comp_def]
  obtain ⟨a, _, hEq⟩ := List.mem_map.mp h
  have ha1 : a = c := congrArg Prod.fst hEq
  have ha2 := congrArg (fun p => p.2.1) hEq
  have ha3 := congrArg (fun p => p.2.2) hEq
  subst ha1
  exact ⟨hfst ▸ List.sorted_insertionSort _ _, hfst ▸ List.perm_insertionSort _ _,
    ha2.symm, ha3.symm⟩

/-- First row of the C6 counterexample frame: class 10B appears first. -/
def c6b : StudentRow := ⟨1, "Mia", "10B", "F", 60, 60, 60, 180, 60, "C"⟩

/-- Second row of the C6 counterexample frame: class 10A appears second. -/
def c6a : StudentRow := ⟨2, "Ned", "10A", "M", 50, 50, 50, 150, 50, "D"⟩

/-- Claim C6 counterexample: with classes appearing in input order
10B, 10A, the report lists 10A before 10B — sorted by label, not by first
appearance. -/
theorem class_performance_not_first_appearance :
    (class_performance [c6b, c6a]).map Prod.fst = ["10A", "10B"] ∧
    ([c6b, c6a].map (·.classLabel)).dedup = ["10B", "10A"] ∧
    (["10A", "10B"] : List String) ≠ ["10B", "10A"] := by
  refine ⟨?_, by decide, by decide⟩
  have hfst : (class_performance [c6b, c6a]).map Prod.fst
      = groupKeys ([c6b, c6a].map (·.classLabel)) := by
    simp [class_performance, List.map_map, Function.comp_def]
  rw [hfst]
  have hd : ([c6b, c6a].map (·.classLabel)).dedup = ["10B", "10A"] := by decide
  rw [groupKeys, hd]
  have hBA : ¬ (("10B" : String) ≤ "10A") := by
    rw [String.le_iff_toList_le]; decide
  simp [List.insertionSort, List.orderedInsert, hBA]

/-- The single row of the C6 witness frame. -/
def c6w : StudentRow := ⟨3, "Ola", "10C", "F", 80, 80, 80, 240, 80, "A"⟩

/-- Witness for `class_performance_spec` at a concrete one-row frame. -/
theorem class_performance_spec_witness :
    (("10C", some (80 : ℚ), 1) ∈ class_performance [c6w]) ∧
    (((class_performance [c6w]).map Prod.fst).Sorted (· ≤ ·) ∧
      ((class_performance [c6w]).map Prod.fst).Perm ([c6w].map (·.classLabel)).dedup ∧
      some (80 : ℚ) = (seriesMean (([c6w].filter
          (fun r => r.classLabel == "10C")).map (·.percentage))).map round2 ∧
      1 = ([c6w].filter (fun r => r.classLabel == "10C")).length) := by
  have hmem : ("10C", some (80 : ℚ), 1) ∈ class_performance [c6w] := by
    have : class_performance [c6w] = [("10C", some (80 : ℚ), 1)] := by
      simp [class_performance, groupKeys, c6w, seriesMean, List.insertionSort,
        List.orderedInsert]
      norm_num [round2, roundHalfEven]
    rw [this]
    exact List.mem_singleton.mpr rfl
  exact ⟨hmem, class_performance_spec [c6w] "10C" (some 80) 1 hmem⟩

/-! ### Claim C9: the student profile against the cohort averages -/

/-- Filtering the long frame by a student name filters each per-subject
block of the melt output by that name. -/
lemma df_long_filter_name (df : List StudentRow) (nm : String) :
    (df_long df).filter (fun e => e.name == nm)
      = (df.filter (fun x => x.name == nm)).map (fun x => meltRow x "Math")
        ++ ((df.filter (fun x => x.name == nm)).map (fun x => meltRow x "Science")
        ++ (df.filter (fun x => x.name == nm)).map (fun x => meltRow x "English")) := by
  rw [df_long_eq, List.filter_append, List.filter_append, List.filter_map,
    List.filter_map, List.filter_map]
  rfl

/-- On a nonempty frame, the subjects occurring in the long output are
exactly the tracked subjects. -/
lemma subjects_of_df_long (df : List StudentRow) (hdf : df ≠ []) (s : String) :
    s ∈ (df_long df).map (·.subject) ↔ s ∈ value_vars := by
  have hmap : (df_long df).map (·.subject)
      = df.map (fun _ => "Math") ++ (df.map (fun _ => "Science")
        ++ df.map (fun _ => "English")) := by
    rw [df_long_eq, List.map_append, List.map_append, List.map_map,
      List.map_map, List.map_map]
    rfl
  obtain ⟨x, hx⟩ := List.exists_mem_of_ne_nil df hdf
  rw [hmap]
  constructor
  · intro h
    rcases List.mem_append.mp h with h1 | h23
    · obtain ⟨a, _, ha⟩ := List.mem_map.mp h1
      rw [← ha]
      simp [value_vars]
    · rcases List.mem_append.mp h23 with h2 | h3
      · obtain ⟨a, _, ha⟩ := List.mem_map.mp h2
        rw [← ha]
        simp [value_vars]
      · obtain ⟨a, _, ha⟩ := List.mem_map.mp h3
        rw [← ha]
        simp [value_vars]
  · intro h
    have h3 : s = "Math" ∨ s = "Science" ∨ s = "English" := by
      simpa [value_vars] using h
    rcases h3 with rfl | rfl | rfl
    · exact List.mem_append.mpr (Or.inl (List.mem_map.mpr ⟨x, hx, rfl⟩))
    · exact List.mem_append.mpr (Or.inr (List.mem_append.mpr
        (Or.inl (List.mem_map.mpr ⟨x, hx, rfl⟩))))
    · exact List.mem_append.mpr (Or.inr (List.mem_append.mpr
        (Or.inr (List.mem_map.mpr ⟨x, hx, rfl⟩))))

/-- On a nonempty frame, the keys of the cohort per-subject averages are
the subjects sorted alphabetically: English, Math, Science. -/
lemma class_avg_keys (df : List StudentRow) (hdf : df ≠ []) :
    (class_avg (df_long df)).map Prod.fst = ["English", "Math", "Science"] := by
  have hfst : (class_avg (df_long df)).map Prod.fst
      = groupKeys ((df_long df).map (·.subject)) := by
    simp [class_avg, List.map_map, Function.comp_def]
  rw [hfst, groupKeys]
  have hnodup : ((df_long df).map (·.subject)).dedup.Nodup := List.nodup_dedup _
  have hmem : ∀ s, s ∈ ((df_long df).map (·.subject)).dedup
      ↔ s ∈ (["English", "Math", "Science"] : List String) := by
    intro s
    rw [List.mem_dedup, subjects_of_df_long df hdf s]
    simp only [value_vars, List.mem_cons, List.not_mem_nil, or_false]
    tauto
  have hperm : ((df_long df).map (·.subject)).dedup.Perm ["English", "Math", "Science"] :=
    (List.perm_ext_iff_of_nodup hnodup (by decide)).mpr hmem
  have h1 : ("English" : String) ≤ "Math" := by rw [String.le_iff_toList_le]; decide
  have h2 : ("English" : String) ≤ "Science" := by rw [String.le_iff_toList_le]; decide
  have h3 : ("Math" : String) ≤ "Science" := by rw [String.le_iff_toList_le]; decide
  have hsortT : (["English", "Math", "Science"] : List String).Sorted (· ≤ ·) := by
    refine List.Pairwise.cons ?_ (List.Pairwise.cons ?_ (List.pairwise_singleton _ _))
    · intro b hb
      rcases List.mem_cons.mp hb with rfl | hb
      · exact h1
      · rcases List.mem_cons.mp hb with rfl | hb
        · exact h2
        · exact absurd hb (List.not_mem_nil b)
    · intro b hb
      rcases List.mem_cons.mp hb with rfl | hb
      · exact h3
      · exact absurd hb (List.not_mem_nil b)
  exact List.eq_of_perm_of_sorted ((List.perm_insertionSort _ _).trans hperm)
    (List.sorted_insertionSort _ _) hsortT

/-- Claim C9 (amended): the cohort averages are computed over the entire
long frame, but their per-subject order is alphabetical — English, Math,
Science — the pandas groupby default, while the selected student's series
keeps the Reshaper subject order Math, Science, English: the two series
do not use the same subject order. -/
theorem build_profile_orders_differ (df : List StudentRow) (r : StudentRow)
    (hdf : df ≠ []) (hname : df.filter (fun x => x.name == r.name) = [r]) :
    (class_avg (df_long df)).map Prod.fst = ["English", "Math", "Science"] ∧
    (student_data (df_long df) r.name).map (·.subject) = value_vars ∧
    (∀ s m, (s, m) ∈ class_avg (df_long df) →
      m = seriesMean (((df_long df).filter (fun e => e.subject == s)).map (·.score))) := by
  refine ⟨class_avg_keys df hdf, ?_, ?_⟩
  · rw [student_data, df_long_filter_name, hname]
    simp [value_vars, meltRow]
  · intro s m hm
    obtain ⟨a, _, hEq⟩ := List.mem_map.mp hm
    have h1 : a = s := congrArg Prod.fst hEq
    have h2 := congrArg Prod.snd hEq
    subst h1
    exact h2.symm

/-- The single row of the C9 frame. -/
def c9r : StudentRow := ⟨1, "Pam", "10A", "F", 85, 88, 82, 255, 85, "A"⟩

/-- Claim C9 counterexample: on a one-student frame the average series is
keyed English, Math, Science while the student's series is keyed Math,
Science, English — the per-subject pairs are not ordered identically to
the Reshaper subject ordering. -/
theorem profile_subject_orders_mismatch :
    (class_avg (df_long [c9r])).map Prod.fst = ["English", "Math", "Science"] ∧
    (student_data (df_long [c9r]) "Pam").map (·.subject) = ["Math", "Science", "English"] ∧
    (["English", "Math", "Science"] : List String) ≠ ["Math", "Science", "English"] := by
  refine ⟨class_avg_keys [c9r] (by simp), ?_, by decide⟩
  have hflt : ([c9r].filter (fun x => x.name == "Pam")) = [c9r] := by
    simp [c9r]
  rw [student_data, df_long_filter_name, hflt]
  simp [meltRow]

/-- Witness for `build_profile_orders_differ` at the concrete one-row
frame. -/
theorem build_profile_orders_differ_witness :
    ([c9r] : List StudentRow) ≠ [] ∧
    ([c9r].filter (fun x => x.name == c9r.name) = [c9r]) ∧
    ((class_avg (df_long [c9r])).map Prod.fst = ["English", "Math", "Science"] ∧
      (student_data (df_long [c9r]) c9r.name).map (·.subject) = value_vars ∧
      (∀ s m, (s, m) ∈ class_avg (df_long [c9r]) →
        m = seriesMean (((df_long [c9r]).filter (fun e => e.subject == s)).map (·.score)))) :=
  ⟨by simp, by simp [c9r], build_profile_orders_differ [c9r] c9r (by simp) (by simp [c9r])⟩

/-! ### Claim C7: the subject correlation matrix -/

lemma zip_self (l : List ℚ) : l.zip l = l.map (fun a => (a, a)) := by
  induction l with
  | nil => rfl
  | cons a l ih => simp [List.zip_cons_cons, ih]

lemma sxx_eq_sum_sq (xs : List ℚ) :
    sxx xs = (xs.map (fun x => (x - meanQ xs) ^ 2)).sum := by
  rw [sxx, sxy, zip_self, List.map_map]
  congr 1
  apply List.map_congr_left
  intro a _
  simp [Function.comp_def, pow_two]

lemma sxx_nonneg (xs : List ℚ) : 0 ≤ sxx xs := by
  rw [sxx_eq_sum_sq]
  apply List.sum_nonneg
  intro x hx
  obtain ⟨a, _, rfl⟩ := List.mem_map.mp hx
  exact sq_nonneg _

lemma sxy_comm (xs ys : List ℚ) : sxy xs ys = sxy ys xs := by
  rw [sxy, sxy, ← List.zip_swap, List.map_map]
  congr 1
  apply List.map_congr_left
  intro a _
  simp [Function.comp_def, mul_comm]

/-- Claim C7 (amended): every entry of the correlation matrix is symmetric
in its two subjects; a diagonal entry is 1.0 whenever its subject has
nonzero variance; and every entry touching a zero-variance subject —
including that subject's own diagonal entry — is the `NaN` sentinel
(none), not an exception.  (The claim that the diagonal is always 1.0 is
refuted by `subject_corr_constant_diagonal_nan`.) -/
theorem subject_corr_spec (df : List StudentRow) (s t : String)
    (hs : s ∈ value_vars) (ht : t ∈ value_vars) :
    pearson (column df s) (column df t) = pearson (column df t) (column df s) ∧
    (sxx (column df s) ≠ 0 → pearson (column df s) (column df s) = some 1) ∧
    (sxx (column df s) = 0 → pearson (column df s) (column df t) = none ∧
      pearson (column df t) (column df s) = none) := by
  refine ⟨?_, ?_, ?_⟩
  · by_cases h1 : sxx (column df s) = 0 <;> by_cases h2 : sxx (column df t) = 0 <;>
      simp [pearson, h1, h2, sxy_comm (column df s) (column df t),
        mul_comm ((sxx (column df s) : ℝ)) ((sxx (column df t) : ℝ))]
  · intro h
    rw [pearson, if_neg (by simpa using h)]
    have hval : sxy (column df s) (column df s) = sxx (column df s) := rfl
    have hcast : (0 : ℝ) ≤ (sxx (column df s) : ℝ) := by
      exact_mod_cast sxx_nonneg (column df s)
    rw [hval, Real.sqrt_mul_self hcast]
    rw [div_self (by exact_mod_cast h)]
  · intro h
    constructor
    · rw [pearson, if_pos (Or.inl h)]
    · rw [pearson, if_pos (Or.inr h)]

/-- First row of the C7 witness frame: Math scores differ across rows. -/
def c7a : StudentRow := ⟨1, "Sam", "10A", "M", 80, 70, 60, 210, 70, "B"⟩

/-- Second row of the C7 witness frame. -/
def c7b : StudentRow := ⟨2, "Tia", "10A", "F", 90, 75, 65, 230, 7667/100, "B"⟩

/-- Witness for `subject_corr_spec` at a concrete two-row frame and the
Math/Science entries. -/
theorem subject_corr_spec_witness :
    "Math" ∈ value_vars ∧ "Science" ∈ value_vars ∧
    (pearson (column [c7a, c7b] "Math") (column [c7a, c7b] "Science")
        = pearson (column [c7a, c7b] "Science") (column [c7a, c7b] "Math") ∧
      (sxx (column [c7a, c7b] "Math") ≠ 0 →
        pearson (column [c7a, c7b] "Math") (column [c7a, c7b] "Math") = some 1) ∧
      (sxx (column [c7a, c7b] "Math") = 0 →
        pearson (column [c7a, c7b] "Math") (column [c7a, c7b] "Science") = none ∧
        pearson (column [c7a, c7b] "Science") (column [c7a, c7b] "Math") = none)) :=
  ⟨by decide, by decide, subject_corr_spec [c7a, c7b] "Math" "Science" (by decide) (by decide)⟩

/-- First row of the C7 counterexample frame: Math is constant at 50. -/
def c7c : StudentRow := ⟨1, "Uma", "10A", "F", 50, 60, 70, 180, 60, "C"⟩

/-- Second row of the C7 counterexample frame: Math again 50. -/
def c7d : StudentRow := ⟨2, "Vic", "10A", "M", 50, 80, 90, 220, 7333/100, "B"⟩

/-- Claim C7 counterexample: with a constant Math column the Math diagonal
entry of the correlation matrix is the `NaN` sentinel (none), not 1.0. -/
theorem subject_corr_constant_diagonal_nan :
    pearson (column [c7c, c7d] "Math") (column [c7c, c7d] "Math") ≠ some 1 ∧
    pearson (column [c7c, c7d] "Math") (column [c7c, c7d] "Math") = none := by
  have hz : sxx (column [c7c, c7d] "Math") = 0 := by
    norm_num [sxx, sxy, meanQ, column, subjectColumn, c7c, c7d]
  constructor
  · rw [pearson, if_pos (Or.inl hz)]
    simp
  · rw [pearson, if_pos (Or.inl hz)]

/-! ### Claim C1: reported derived fields come from the provided columns -/

/-- Two rows that agree on every column except the three raw subject
scores. -/
def sameProvided (r r' : StudentRow) : Prop :=
  r.studentId = r'.studentId ∧ r.name = r'.name ∧ r.classLabel = r'.classLabel ∧
  r.gender = r'.gender ∧ r.total = r'.total ∧ r.percentage = r'.percentage ∧
  r.grade = r'.grade

lemma orderedInsert_map (r : StudentRow → StudentRow → Prop) [DecidableRel r]
    (g : StudentRow → StudentRow) (hg : ∀ a b, r (g a) (g b) ↔ r a b)
    (a : StudentRow) (l : List StudentRow) :
    (l.map g).orderedInsert r (g a) = (l.orderedInsert r a).map g := by
  induction l with
  | nil => simp
  | cons b l ih =>
    by_cases h : r a b
    · simp [List.orderedInsert, h, (hg a b).mpr h]
    · have h' : ¬ r (g a) (g b) := fun hh => h ((hg a b).mp hh)
      simp [List.orderedInsert, h, h', ih]

lemma insertionSort_map (r : StudentRow → StudentRow → Prop) [DecidableRel r]
    (g : StudentRow → StudentRow) (hg : ∀ a b, r (g a) (g b) ↔ r a b)
    (l : List StudentRow) :
    List.insertionSort r (l.map g) = (List.insertionSort r l).map g := by
  induction l with
  | nil => rfl
  | cons a l ih => simp [List.insertionSort, ih, orderedInsert_map r g hg a]

/-- Claim C1 (amended): every derived value the program reports — the
average percentage, the Total/Percentage/Grade columns of the top and
bottom performer tables, and the grade distribution — is read from the
provided derived columns and is insensitive to the raw subject scores:
replacing the raw scores of every row while keeping the provided columns
leaves all of them unchanged.  Nothing is recomputed from raw scores.
(The claim as stated is refuted by `avg_percentage_not_recomputed`.) -/
theorem derived_fields_from_provided_columns (df : List StudentRow)
    (g : StudentRow → StudentRow) (hg : ∀ x, sameProvided x (g x)) :
    avg_percentage (df.map g) = avg_percentage df ∧
    (top_students (df.map g)).map reportedDerived
      = (top_students df).map reportedDerived ∧
    (bottom_students (df.map g)).map reportedDerived
      = (bottom_students df).map reportedDerived ∧
    grade_counts (df.map g) = grade_counts df := by
  have hperc : ∀ x, (g x).percentage = x.percentage := fun x =>
    ((hg x).2.2.2.2.2.1).symm
  have hgr : ∀ x, (g x).grade = x.grade := fun x => ((hg x).2.2.2.2.2.2).symm
  have hrd : ∀ x, reportedDerived (g x) = reportedDerived x := by
    intro x
    obtain ⟨-, -, -, -, h5, h6, h7⟩ := hg x
    simp [reportedDerived, h5.symm, h6.symm, h7.symm]
  have hdesc : ∀ a b, percDesc (g a) (g b) ↔ percDesc a b := by
    intro a b
    simp [percDesc, hperc]
  have hasc : ∀ a b, percAsc (g a) (g b) ↔ percAsc a b := by
    intro a b
    simp [percAsc, hperc]
  refine ⟨?_, ?_, ?_, ?_⟩
  · rw [avg_percentage, avg_percentage, List.map_map]
    exact congrArg (Option.map round2)
      (congrArg seriesMean (List.map_congr_left (fun a _ => hperc a)))
  · rw [top_students, top_students, nlargestPerc, nlargestPerc,
      insertionSort_map percDesc g hdesc, ← List.map_take, List.map_map]
    exact List.map_congr_left (fun a _ => hrd a)
  · rw [bottom_students, bottom_students, nsmallestPerc, nsmallestPerc,
      insertionSort_map percAsc g hasc, ← List.map_take, List.map_map]
    exact List.map_congr_left (fun a _ => hrd a)
  · rw [grade_counts, grade_counts]
    apply List.map_congr_left
    intro a _
    have hc : (df.map g).countP (fun x => x.grade == a) = df.countP (fun x => x.grade == a) := by
      rw [List.countP_map]
      exact List.countP_congr (fun x _ => by simp [Function.comp_def, hgr x])
    simp only [hc]

/-- The single row of the C1 counterexample frame: its raw scores are all
0, but its provided Percentage column says 100. -/
def c1r : StudentRow := ⟨1, "Quin", "10A", "F", 0, 0, 0, 300, 100, "A+"⟩

/-- Claim C1 counterexample: the reported average percentage equals the
forged provided Percentage column (100), while the value recomputed from
the raw subject scores is 0 — the program trusts the provided column. -/
theorem avg_percentage_not_recomputed :
    avg_percentage [c1r] = some 100 ∧ specPercentage c1r = 0 ∧ (100 : ℚ) ≠ 0 := by
  refine ⟨?_, by norm_num [specPercentage, specTotal, c1r], by norm_num⟩
  norm_num [avg_percentage, seriesMean, c1r, round2, roundHalfEven]

/-- The single row of the C1 witness frame. -/
def c1w : StudentRow := ⟨2, "Rex", "10B", "M", 10, 20, 30, 60, 20, "F"⟩

/-- A raw-score edit that keeps every provided column. -/
def bumpMath (r : StudentRow) : StudentRow := { r with math := r.math + 7 }

/-- Witness for `derived_fields_from_provided_columns` at a concrete
frame and raw-score edit. -/
theorem derived_fields_from_provided_columns_witness :
    (∀ x, sameProvided x (bumpMath x)) ∧
    (avg_percentage ([c1w].map bumpMath) = avg_percentage [c1w] ∧
      (top_students ([c1w].map bumpMath)).map reportedDerived
        = (top_students [c1w]).map reportedDerived ∧
      (bottom_students ([c1w].map bumpMath)).map reportedDerived
        = (bottom_students [c1w]).map reportedDerived ∧
      grade_counts ([c1w].map bumpMath) = grade_counts [c1w]) :=
  ⟨fun _ => ⟨rfl, rfl, rfl, rfl, rfl, rfl, rfl⟩,
    derived_fields_from_provided_columns [c1w] bumpMath
      (fun _ => ⟨rfl, rfl, rfl, rfl, rfl, rfl, rfl⟩)⟩

end StudentAnalysis
